import Mathlib

/-!
Verification of the bedrock-forge example Lambda handlers against their
specification.

The repository consists of four Python request handlers:
  * `new_examples/simple-multi-lambda-agent/lambda-functions/summary-generator/summary_generator.py`
  * `new_examples/simple-multi-lambda-agent/lambda-functions/text-processor/text_processor.py`
  * `examples/lambdas/order-lookup/app.py`
  * `examples/lambdas/product-search-api/app.py`

Modelling conventions (shallow embedding of the Python source):
  * Python strings are modelled as `List Char` (abbreviated `Str`); `len`,
    slicing, `split`, `strip`, `lower`, `in` and `join` become explicit
    executable functions below, each mirroring CPython semantics on the
    character level.
  * JSON-compatible Python values (the event payloads and response bodies)
    are modelled by the inductive type `JValue`.  Python floats are modelled
    as exact rationals; the handlers only ever compare or transcribe them.
  * Dynamically raised exceptions (`TypeError`, `AttributeError`,
    `ValueError`, boto3 faults, ...) are modelled with `Except Str`: a
    handler body is a function into `Except Str JValue` and the `try ...
    except` boundary of the source becomes a total function that maps the
    `.error` case to the error response the `except` clause builds.  The
    carried message is a stand-in for `str(e)`; no theorem depends on its
    exact text.
  * External effects (S3 reads, byte decoding, `json.loads`, and Python's
    process-seeded `hash`) are not part of the repository's logic; they are
    supplied as an explicit environment `PyEnv` and quantified over in the
    theorems.
-/

/-- Python strings, modelled as lists of characters. -/
abbrev Str := List Char

/-- Convert a Lean string literal to the `Str` model. -/
def pys (s : String) : Str := s.toList

/-- The characters Python's `str.strip()` removes (ASCII whitespace). -/
def isPySpace (c : Char) : Bool :=
  c = ' ' ∨ c = '\t' ∨ c = '\n' ∨ c = '\x0d' ∨ c = '\x0b' ∨ c = '\x0c'

/-- Python `str.strip()`: drop leading and trailing whitespace. -/
def pyStrip (s : Str) : Str :=
  ((s.dropWhile isPySpace).reverse.dropWhile isPySpace).reverse

/-- Python `str.lower()` (the handlers only feed it ASCII data). -/
def pyLower (s : Str) : Str := s.map Char.toLower

/-- Split a string at every character satisfying `p`, keeping empty
fragments, as Python's `str.split(sep)` does for a one-character `sep`. -/
def pySplitP (p : Char → Bool) : Str → List Str
  | [] => [[]]
  | c :: cs =>
    match pySplitP p cs with
    | [] => [[]]
    | y :: ys => if p c then [] :: y :: ys else (c :: y) :: ys

/-- Python `s.split(c)` for a single-character separator. -/
def pySplitChar (c : Char) (s : Str) : List Str := pySplitP (fun x => x = c) s

/-- Python `s.split()` (no argument): split on whitespace runs, no empty
fragments. -/
def pySplitWs (s : Str) : List Str :=
  (pySplitP isPySpace s).filter (fun w => !w.isEmpty)

/-- Python `sep.join(xs)`. -/
def pyJoin (sep : Str) : List Str → Str
  | [] => []
  | [x] => x
  | x :: y :: rest => x ++ sep ++ pyJoin sep (y :: rest)

/-- Python `s[:n]` (an upper-bounded slice): a non-negative bound takes a
prefix, a negative bound counts from the end, clamped at the empty string. -/
def pySliceTo (s : Str) (n : Int) : Str :=
  if 0 ≤ n then s.take n.toNat else s.take (s.length - (-n).toNat)

/-- Python `needle in haystack` substring containment. -/
def pyContainsSub (needle : Str) : Str → Bool
  | [] => needle.isEmpty
  | c :: cs => needle.isPrefixOf (c :: cs) || pyContainsSub needle cs

/-- Python `s.endswith(suffix)`. -/
def pyEndsWith (s suffix : Str) : Bool := suffix.isSuffixOf s

/-- JSON-compatible Python values: the payloads the handlers receive and the
response structures they build.  Python floats are carried as exact
rationals. -/
inductive JValue where
  | jnull
  | jbool (b : Bool)
  | jint (n : Int)
  | jrat (q : Rat)
  | jstr (s : Str)
  | jlist (xs : List JValue)
  | jobj (fields : List (Str × JValue))

mutual

def jvalDecEq : (a b : JValue) → Decidable (a = b)
  | .jnull, .jnull => isTrue rfl
  | .jbool a, .jbool b =>
      if h : a = b then isTrue (by rw [h]) else isFalse (by simp [h])
  | .jint a, .jint b =>
      if h : a = b then isTrue (by rw [h]) else isFalse (by simp [h])
  | .jrat a, .jrat b =>
      if h : a = b then isTrue (by rw [h]) else isFalse (by simp [h])
  | .jstr a, .jstr b =>
      if h : a = b then isTrue (by rw [h]) else isFalse (by simp [h])
  | .jlist xs, .jlist ys =>
      match jvalListDecEq xs ys with
      | isTrue h => isTrue (by rw [h])
      | isFalse h => isFalse (by simp [h])
  | .jobj xs, .jobj ys =>
      match jvalFieldsDecEq xs ys with
      | isTrue h => isTrue (by rw [h])
      | isFalse h => isFalse (by simp [h])
  | .jnull, .jbool _ => isFalse (fun h => nomatch h)
  | .jnull, .jint _ => isFalse (fun h => nomatch h)
  | .jnull, .jrat _ => isFalse (fun h => nomatch h)
  | .jnull, .jstr _ => isFalse (fun h => nomatch h)
  | .jnull, .jlist _ => isFalse (fun h => nomatch h)
  | .jnull, .jobj _ => isFalse (fun h => nomatch h)
  | .jbool _, .jnull => isFalse (fun h => nomatch h)
  | .jbool _, .jint _ => isFalse (fun h => nomatch h)
  | .jbool _, .jrat _ => isFalse (fun h => nomatch h)
  | .jbool _, .jstr _ => isFalse (fun h => nomatch h)
  | .jbool _, .jlist _ => isFalse (fun h => nomatch h)
  | .jbool _, .jobj _ => isFalse (fun h => nomatch h)
  | .jint _, .jnull => isFalse (fun h => nomatch h)
  | .jint _, .jbool _ => isFalse (fun h => nomatch h)
  | .jint _, .jrat _ => isFalse (fun h => nomatch h)
  | .jint _, .jstr _ => isFalse (fun h => nomatch h)
  | .jint _, .jlist _ => isFalse (fun h => nomatch h)
  | .jint _, .jobj _ => isFalse (fun h => nomatch h)
  | .jrat _, .jnull => isFalse (fun h => nomatch h)
  | .jrat _, .jbool _ => isFalse (fun h => nomatch h)
  | .jrat _, .jint _ => isFalse (fun h => nomatch h)
  | .jrat _, .jstr _ => isFalse (fun h => nomatch h)
  | .jrat _, .jlist _ => isFalse (fun h => nomatch h)
  | .jrat _, .jobj _ => isFalse (fun h => nomatch h)
  | .jstr _, .jnull => isFalse (fun h => nomatch h)
  | .jstr _, .jbool _ => isFalse (fun h => nomatch h)
  | .jstr _, .jint _ => isFalse (fun h => nomatch h)
  | .jstr _, .jrat _ => isFalse (fun h => nomatch h)
  | .jstr _, .jlist _ => isFalse (fun h => nomatch h)
  | .jstr _, .jobj _ => isFalse (fun h => nomatch h)
  | .jlist _, .jnull => isFalse (fun h => nomatch h)
  | .jlist _, .jbool _ => isFalse (fun h => nomatch h)
  | .jlist _, .jint _ => isFalse (fun h => nomatch h)
  | .jlist _, .jrat _ => isFalse (fun h => nomatch h)
  | .jlist _, .jstr _ => isFalse (fun h => nomatch h)
  | .jlist _, .jobj _ => isFalse (fun h => nomatch h)
  | .jobj _, .jnull => isFalse (fun h => nomatch h)
  | .jobj _, .jbool _ => isFalse (fun h => nomatch h)
  | .jobj _, .jint _ => isFalse (fun h => nomatch h)
  | .jobj _, .jrat _ => isFalse (fun h => nomatch h)
  | .jobj _, .jstr _ => isFalse (fun h => nomatch h)
  | .jobj _, .jlist _ => isFalse (fun h => nomatch h)

def jvalListDecEq : (xs ys : List JValue) → Decidable (xs = ys)
  | [], [] => isTrue rfl
  | [], _ :: _ => isFalse (fun h => nomatch h)
  | _ :: _, [] => isFalse (fun h => nomatch h)
  | x :: xs, y :: ys =>
      match jvalDecEq x y with
      | isFalse h => isFalse (by simp [h])
      | isTrue h1 =>
        match jvalListDecEq xs ys with
        | isTrue h2 => isTrue (by rw [h1, h2])
        | isFalse h2 => isFalse (by simp [h2])

def jvalFieldsDecEq : (xs ys : List (Str × JValue)) → Decidable (xs = ys)
  | [], [] => isTrue rfl
  | [], _ :: _ => isFalse (fun h => nomatch h)
  | _ :: _, [] => isFalse (fun h => nomatch h)
  | (k, v) :: xs, (k2, v2) :: ys =>
      if hk : k = k2 then
        match jvalDecEq v v2 with
        | isFalse h => isFalse (by simp [h])
        | isTrue h1 =>
          match jvalFieldsDecEq xs ys with
          | isTrue h2 => isTrue (by rw [hk, h1, h2])
          | isFalse h2 => isFalse (by simp [h2])
      else isFalse (by simp [hk])

end

instance : DecidableEq JValue := jvalDecEq

namespace JValue

/-- Python truthiness of a value: `None`, `False`, numeric zero and empty
containers are falsy, everything else is truthy. -/
def pyTruthy : JValue → Bool
  | jnull => false
  | jbool b => b
  | jint n => n ≠ 0
  | jrat q => q ≠ 0
  | jstr s => !s.isEmpty
  | jlist xs => !xs.isEmpty
  | jobj fs => !fs.isEmpty

end JValue

/-- `d.get(key, default)` on a Python dict whose keys are strings (the raw
event and the per-parameter objects): first binding wins; Python dicts never
hold duplicate keys, so this is exact. -/
def dget (fields : List (Str × JValue)) (key : Str) (dflt : JValue) : JValue :=
  match fields.find? (fun f => f.1 = key) with
  | some f => f.2
  | none => dflt

/-- `d.get(key)`/`key in d` information: `none` when the key is absent. -/
def dgetOpt (fields : List (Str × JValue)) (key : Str) : Option JValue :=
  (fields.find? (fun f => f.1 = key)).map (fun f => f.2)

/-- The normalized parameter dictionary: Python dict with arbitrary
(hashable) keys, in insertion order. -/
abbrev PDict := List (JValue × JValue)

/-- Python `d[k] = v`: overwrite the first (only) binding of an existing
key in place, otherwise append the new binding. -/
def pdictUpdate : PDict → JValue → JValue → PDict
  | [], k, v => [(k, v)]
  | (k2, v2) :: rest, k, v =>
    if k2 = k then (k2, v) :: rest else (k2, v2) :: pdictUpdate rest k v

/-- Python `d.get(k)` on the normalized parameter dictionary, `none` when
absent. -/
def pdictFind : PDict → JValue → Option JValue
  | [], _ => none
  | (k2, v2) :: rest, k => if k2 = k then some v2 else pdictFind rest k

/-- Python `d.get(k, dflt)` on the normalized parameter dictionary. -/
def pdictGet (d : PDict) (k dflt : JValue) : JValue := (pdictFind d k).getD dflt

/-- Decimal digits of a natural number. -/
def natRepr (n : Nat) : Str := (toString n).toList

/-- Decimal rendering of an integer, as Python and JSON print it. -/
def intRepr (n : Int) : Str := (toString n).toList

/-- A lowercase hexadecimal digit. -/
def hexDigit (n : Nat) : Char :=
  if n < 10 then Char.ofNat (48 + n) else Char.ofNat (87 + n)

/-- Four lowercase hex digits, for JSON `\uXXXX` escapes (the repository's
data stays within the basic multilingual plane). -/
def hex4 (n : Nat) : Str :=
  [hexDigit (n / 4096 % 16), hexDigit (n / 256 % 16), hexDigit (n / 16 % 16),
   hexDigit (n % 16)]

/-- Escape one character the way `json.dumps` (with its default
`ensure_ascii=True`) does. -/
def jsonEscapeChar (c : Char) : Str :=
  if c = '"' then ['\\', '"']
  else if c = '\\' then ['\\', '\\']
  else if c = '\n' then ['\\', 'n']
  else if c = '\x0d' then ['\\', 'r']
  else if c = '\t' then ['\\', 't']
  else if c.toNat < 32 ∨ 127 ≤ c.toNat then ['\\', 'u'] ++ hex4 c.toNat
  else [c]

/-- Rendering of a Python float carried as an exact rational.  The
repository's floats all have at most two decimal places, which this prints
exactly (`105.48`, `1.0`, `0.85`); other rationals fall back to a
fraction rendering.  CPython prints the shortest repr of the IEEE double;
no theorem in this file depends on this rendering. -/
def ratRepr (q : Rat) : Str :=
  if 100 % q.den = 0 then
    let m := (q.num * (100 / (q.den : Int))).natAbs
    let frac := m % 100
    let fracDigits :=
      if frac % 10 = 0 then [hexDigit (frac / 10)]
      else [hexDigit (frac / 10), hexDigit (frac % 10)]
    (if q.num < 0 then ['-'] else []) ++ natRepr (m / 100) ++ '.' :: fracDigits
  else intRepr q.num ++ '/' :: natRepr q.den

mutual

/-- `json.dumps` with its default separators, as used by every
`create_*_response` helper and by the order-lookup handler. -/
def jsonDumps : JValue → Str
  | .jnull => pys "null"
  | .jbool true => pys "true"
  | .jbool false => pys "false"
  | .jint n => intRepr n
  | .jrat q => ratRepr q
  | .jstr s => '"' :: List.flatten (s.map jsonEscapeChar) ++ ['"']
  | .jlist xs => '[' :: jsonDumpsList xs ++ [']']
  | .jobj fs => pys "\x7b" ++ jsonDumpsFields fs ++ pys "\x7d"

def jsonDumpsList : List JValue → Str
  | [] => []
  | [x] => jsonDumps x
  | x :: y :: rest => jsonDumps x ++ pys ", " ++ jsonDumpsList (y :: rest)

def jsonDumpsFields : List (Str × JValue) → Str
  | [] => []
  | [(k, v)] => jsonDumps (.jstr k) ++ pys ": " ++ jsonDumps v
  | (k, v) :: f :: rest =>
      jsonDumps (.jstr k) ++ pys ": " ++ jsonDumps v ++ pys ", " ++
        jsonDumpsFields (f :: rest)

end

/-- The single-quote character, for Python `repr` of strings. -/
def squote : Char := Char.ofNat 39

mutual

/-- Python `str(v)`, as f-string interpolation applies it.  Exact for
strings, numbers, booleans and `None`; for containers it follows `repr`
(embedded-quote escaping omitted — the repository never interpolates a
container, and no theorem depends on these cases). -/
def pyStrOf : JValue → Str
  | .jstr s => s
  | .jnull => pys "None"
  | .jbool true => pys "True"
  | .jbool false => pys "False"
  | .jint n => intRepr n
  | .jrat q => ratRepr q
  | .jlist xs => '[' :: pyReprList xs ++ [']']
  | .jobj fs => pys "\x7b" ++ pyReprFields fs ++ pys "\x7d"

/-- Python `repr(v)` (same caveats as `pyStrOf`). -/
def pyRepr : JValue → Str
  | .jstr s => squote :: s ++ [squote]
  | .jnull => pys "None"
  | .jbool true => pys "True"
  | .jbool false => pys "False"
  | .jint n => intRepr n
  | .jrat q => ratRepr q
  | .jlist xs => '[' :: pyReprList xs ++ [']']
  | .jobj fs => pys "\x7b" ++ pyReprFields fs ++ pys "\x7d"

def pyReprList : List JValue → Str
  | [] => []
  | [x] => pyRepr x
  | x :: y :: rest => pyRepr x ++ pys ", " ++ pyReprList (y :: rest)

def pyReprFields : List (Str × JValue) → Str
  | [] => []
  | [(k, v)] => pyRepr (.jstr k) ++ pys ": " ++ pyRepr v
  | (k, v) :: f :: rest =>
      pyRepr (.jstr k) ++ pys ": " ++ pyRepr v ++ pys ", " ++
        pyReprFields (f :: rest)

end

/-- Python `f"&#123;h:05d&#125;"`-style zero padding for the id counters (only
reached with `0 ≤ n < 100000`). -/
def pad5 (n : Int) : Str :=
  List.replicate (5 - (intRepr n).length) '0' ++ intRepr n

/-- `round(q, 2)` with round-half-to-even, modelled exactly over the
rationals (CPython rounds the IEEE double; the difference is invisible to
every theorem here). -/
def pyRound2 (q : Rat) : Rat :=
  let x := q * 100
  let f := x.floor
  let r := x - (f : Rat)
  let n : Int :=
    if r < 1/2 then f
    else if 1/2 < r then f + 1
    else if f % 2 = 0 then f else f + 1
  (n : Rat) / 100

/-- The value of a non-empty all-digit string. -/
def digitsVal (ds : Str) : Option Nat :=
  if ds = [] then none
  else if ds.all (fun c => c.isDigit) then
    some (ds.foldl (fun a c => a * 10 + (c.toNat - 48)) 0)
  else none

/-- `int(s)` on a string: optional sign around stripped digits. -/
def parseIntStr (s : Str) : Option Int :=
  match pyStrip s with
  | '+' :: ds => (digitsVal ds).map (fun n => (n : Int))
  | '-' :: ds => (digitsVal ds).map (fun n => -(n : Int))
  | ds => (digitsVal ds).map (fun n => (n : Int))

/-- Python `int(v)` as the summary generator applies it to `max_length`
(any `ValueError`/`TypeError` is caught there and mapped to `None`, so
this returns an `Option`): exact on ints and booleans, truncation toward
zero on floats, digit parsing on strings, failure otherwise. -/
def pyToInt : JValue → Option Int
  | .jint n => some n
  | .jbool b => some (if b then 1 else 0)
  | .jrat q => some (if 0 ≤ q then q.floor else -((-q).floor))
  | .jstr s => parseIntStr s
  | _ => none

/-- The ambient Python runtime facts the handlers use but the repository
does not define: the process-seeded string `hash`, the S3 client, byte
decoding and the `json` module's parser and indented printer.  All are
external effects or library calls; the theorems quantify over them. -/
structure PyEnv where
  pyHash : Str → Int
  s3_get_object : Str → Str → Except Str (List Nat)
  decode_utf8 : List Nat → Except Str Str
  decode_utf8_ignore : List Nat → Str
  json_loads : Str → Except Str JValue
  json_dumps_indent2 : JValue → Str

namespace Bedrock

/-- `create_success_response` — defined verbatim-identically in
`summary_generator.py` (lines 216-241) and `text_processor.py`
(lines 170-195): the function-call envelope with the result
JSON-serialized into `responseBody.TEXT.body`. -/
def create_success_response (action_group function_name result : JValue) :
    JValue :=
  .jobj [
    (pys "messageVersion", .jstr (pys "1.0")),
    (pys "response", .jobj [
      (pys "actionGroup", action_group),
      (pys "function", function_name),
      (pys "functionResponse", .jobj [
        (pys "responseBody", .jobj [
          (pys "TEXT", .jobj [
            (pys "body", .jstr (jsonDumps result))])])])])]

/-- `create_error_response` — defined verbatim-identically in
`summary_generator.py` (lines 243-276) and `text_processor.py`
(lines 197-230): the FAILURE envelope; the `details` field is attached
only when truthy (`if details:`), matching the source's default `None`. -/
def create_error_response (action_group function_name : JValue)
    (error_message : Str) (details : JValue) : JValue :=
  let error_data : JValue :=
    if details.pyTruthy then
      .jobj [(pys "error", .jstr error_message), (pys "details", details)]
    else
      .jobj [(pys "error", .jstr error_message)]
  .jobj [
    (pys "messageVersion", .jstr (pys "1.0")),
    (pys "response", .jobj [
      (pys "actionGroup", action_group),
      (pys "function", function_name),
      (pys "functionResponse", .jobj [
        (pys "responseState", .jstr (pys "FAILURE")),
        (pys "responseBody", .jobj [
          (pys "TEXT", .jobj [
            (pys "body", .jstr (jsonDumps error_data))])])])])]

/-- Structural check: the value is exactly a success-shaped function-call
envelope (spec section 6). -/
def isFnSuccessEnvelope : JValue → Bool
  | .jobj [(mv, .jstr ver), (rk, .jobj [(agk, _), (fnk, _),
      (frk, .jobj [(rbk, .jobj [(tk, .jobj [(bk, .jstr _)])])])])] =>
      mv = pys "messageVersion" ∧ ver = pys "1.0" ∧ rk = pys "response" ∧
      agk = pys "actionGroup" ∧ fnk = pys "function" ∧
      frk = pys "functionResponse" ∧ rbk = pys "responseBody" ∧
      tk = pys "TEXT" ∧ bk = pys "body"
  | _ => false

/-- Structural check: the value is exactly a FAILURE-shaped function-call
envelope (spec section 6). -/
def isFnFailureEnvelope : JValue → Bool
  | .jobj [(mv, .jstr ver), (rk, .jobj [(agk, _), (fnk, _),
      (frk, .jobj [(rsk, .jstr st),
        (rbk, .jobj [(tk, .jobj [(bk, .jstr _)])])])])] =>
      mv = pys "messageVersion" ∧ ver = pys "1.0" ∧ rk = pys "response" ∧
      agk = pys "actionGroup" ∧ fnk = pys "function" ∧
      frk = pys "functionResponse" ∧ rsk = pys "responseState" ∧
      st = pys "FAILURE" ∧ rbk = pys "responseBody" ∧
      tk = pys "TEXT" ∧ bk = pys "body"
  | _ => false

/-- A well-formed function-call response envelope: success or FAILURE. -/
def isFnCallEnvelope (v : JValue) : Bool :=
  isFnSuccessEnvelope v || isFnFailureEnvelope v

/-- Structural check for the flat HTTP-style envelope of the order-lookup
handler: a `statusCode` of 200, 400 or 500 and a string `body`. -/
def isFlatEnvelope : JValue → Bool
  | .jobj [(sk, .jint n), (bk, .jstr _)] =>
      sk = pys "statusCode" ∧ bk = pys "body" ∧
      (n = 200 ∨ n = 400 ∨ n = 500)
  | _ => false

end Bedrock

/-- Iterating a Python value with `for`: lists yield their elements,
strings their characters (as 1-character strings), dicts their keys;
numbers, booleans and `None` raise `TypeError`. -/
def iterElems : JValue → Except Str (List JValue)
  | .jlist xs => .ok xs
  | .jstr s => .ok (s.map (fun ch => .jstr [ch]))
  | .jobj fs => .ok (fs.map (fun f => .jstr f.1))
  | .jnull => .error (pys "TypeError: object is not iterable")
  | .jbool _ => .error (pys "TypeError: object is not iterable")
  | .jint _ => .error (pys "TypeError: object is not iterable")
  | .jrat _ => .error (pys "TypeError: object is not iterable")

/-- `param.get('name', '')` and `param.get('value', '')` on one entry of
the parameters sequence; a non-dict entry raises `AttributeError`. -/
def paramNameValue : JValue → Except Str (JValue × JValue)
  | .jobj fs =>
      .ok (dget fs (pys "name") (.jstr []), dget fs (pys "value") (.jstr []))
  | _ => .error (pys "AttributeError: object has no attribute get")

/-- The parameter-normalization loop shared by `summary_generator.py`
(lines 34-36) and `text_processor.py` (lines 38-40): fold the sequence
left-to-right into a dict, later bindings overwriting earlier ones. -/
def buildParamsLoop : List JValue → PDict → Except Str PDict
  | [], d => .ok d
  | p :: ps, d =>
    match paramNameValue p with
    | .error e => .error e
    | .ok nv => buildParamsLoop ps (pdictUpdate d nv.1 nv.2)

/-- Normalize a raw `parameters` value into the parameter dict. -/
def buildParams (v : JValue) : Except Str PDict :=
  match iterElems v with
  | .error e => .error e
  | .ok es => buildParamsLoop es []

/-- A raw invocation event: the deserialized JSON object the Lambda
runtime hands to the handler. -/
abbrev Event := List (Str × JValue)

namespace SummaryGenerator

/-- The shared max-length truncation step of `generate_brief_summary`
(lines 150-152) and `generate_detailed_summary` (lines 174-176):
`summary[:max_length-3] + "..."` under `if max_length and
len(summary) > max_length`. -/
def applyMaxLength (summary : Str) : Option Int → Str
  | none => summary
  | some m =>
      if m ≠ 0 ∧ (summary.length : Int) > m then
        pySliceTo summary (m - 3) ++ pys "..."
      else summary

/-- `[s.strip() for s in text.split('.') if s.strip()]` — the sentence
splitter shared by all three summary generators. -/
def sentencesOf (text : Str) : List Str :=
  ((pySplitChar '.' text).map pyStrip).filter (fun s => !s.isEmpty)

/-- `generate_brief_summary` (summary_generator.py lines 134-154). -/
def generate_brief_summary (text : Str) (max_length : Option Int) : Str :=
  match sentencesOf text with
  | [] => pys "No content to summarize."
  | [s0] => applyMaxLength s0 max_length
  | [s0, s1] => applyMaxLength (s0 ++ pys ". " ++ s1) max_length
  | s0 :: s1 :: s2 :: rest =>
      applyMaxLength (s0 ++ pys ". " ++ (s0 :: s1 :: s2 :: rest).getLastD [])
        max_length

/-- `generate_detailed_summary` (summary_generator.py lines 156-178). -/
def generate_detailed_summary (text : Str) (max_length : Option Int) : Str :=
  match sentencesOf text with
  | [] => pys "No content to summarize."
  | s :: rest =>
    let sentences := s :: rest
    let max_sentences := min 5 sentences.length
    let summary :=
      if sentences.length ≤ max_sentences then
        pyJoin (pys ". ") sentences ++ ['.']
      else
        pyJoin (pys ". ")
          (sentences.take 3 ++ sentences.drop (sentences.length - 2)) ++ ['.']
    applyMaxLength summary max_length

/-- The bullet prefix `"â€¢ "` of summary_generator.py line 197 — the
source file holds these literal (mojibake) characters. -/
def bulletMark : Str := pys "â€¢ "

/-- The bullet truncation loop of summary_generator.py lines 204-211:
append whole points while they fit in `max_length - 3` (counting one
separator per point), stop at the first that does not. -/
def bulletTruncLoop (m : Int) : List Str → Int → List Str
  | [], _ => []
  | pt :: pts, current_length =>
      if current_length + (pt.length : Int) + 1 ≤ m - 3 then
        pt :: bulletTruncLoop m pts (current_length + pt.length + 1)
      else []

/-- `generate_bullet_points_summary` (summary_generator.py lines
180-214). -/
def generate_bullet_points_summary (text : Str) (max_length : Option Int) :
    Str :=
  match sentencesOf text with
  | [] => pys "No content to summarize."
  | s :: rest =>
    let sentences := s :: rest
    let max_points := min 5 sentences.length
    let selected := sentences.take max_points
    let bullet_points := selected.map (fun sentence =>
      bulletMark ++
        (if 100 < sentence.length then sentence.take 97 ++ pys "..."
         else sentence))
    let summary := pyJoin (pys "\n") bullet_points
    match max_length with
    | none => summary
    | some m =>
        if m ≠ 0 ∧ (summary.length : Int) > m then
          pyJoin (pys "\n") (bulletTruncLoop m bullet_points 0) ++ pys "..."
        else summary

/-- The body of `generate_summary` (summary_generator.py lines 71-123)
inside its `try`: parameter extraction, `int()` conversion of
`max_length` with its local exception-to-`None` handler, the two
validations, dispatch on the summary type and result construction.
`len(text)` on a truthy non-string raises, which the `.error` case
carries to the function's `except` clause. -/
def generate_summary_body (env : PyEnv) (parameters : PDict)
    (action_group function_name : JValue) : Except Str JValue :=
  let text := pdictGet parameters (.jstr (pys "text")) (.jstr [])
  let summary_type :=
    pdictGet parameters (.jstr (pys "summary_type")) (.jstr (pys "brief"))
  let max_length :=
    match pdictFind parameters (.jstr (pys "max_length")) with
    | none => none
    | some v => pyToInt v
  if !text.pyTruthy then
    .ok (Bedrock.create_error_response action_group function_name
      (pys "Missing required parameter: text") .jnull)
  else if summary_type ∉ ([.jstr (pys "brief"), .jstr (pys "detailed"),
      .jstr (pys "bullet_points")] : List JValue) then
    .ok (Bedrock.create_error_response action_group function_name
      (pys "Invalid summary_type")
      (.jobj [(pys "valid_types", .jlist [.jstr (pys "brief"),
        .jstr (pys "detailed"), .jstr (pys "bullet_points")])]))
  else
    match text with
    | .jstr t =>
      let st := match summary_type with | .jstr s => s | _ => []
      let summary :=
        if st = pys "brief" then generate_brief_summary t max_length
        else if st = pys "detailed" then generate_detailed_summary t max_length
        else generate_bullet_points_summary t max_length
      let summary_id := pys "sum_" ++ pad5 (env.pyHash (t ++ st) % 100000)
      let result : JValue := .jobj [
        (pys "summary_id", .jstr summary_id),
        (pys "summary", .jstr summary),
        (pys "summary_type", summary_type),
        (pys "original_length", .jint t.length),
        (pys "summary_length", .jint summary.length),
        (pys "compression_ratio",
          if t.isEmpty then .jint 0
          else .jrat (pyRound2 ((summary.length : Rat) / (t.length : Rat))))]
      .ok (Bedrock.create_success_response action_group function_name result)
    | _ => .error (pys "TypeError: object of this type has no len")

/-- `generate_summary` (summary_generator.py lines 59-132): the body with
its own `except Exception` clause, which produces the
`Summary generation failed` FAILURE envelope carrying `str(e)`. -/
def generate_summary (env : PyEnv) (parameters : PDict)
    (action_group function_name : JValue) : JValue :=
  match generate_summary_body env parameters action_group function_name with
  | .ok r => r
  | .error e =>
      Bedrock.create_error_response action_group function_name
        (pys "Summary generation failed") (.jstr e)

/-- The body of `lambda_handler` (summary_generator.py lines 25-48)
inside its `try`: field extraction, parameter normalization and dispatch
on the declared function name. -/
def lambda_handler_body (env : PyEnv) (event : Event) : Except Str JValue :=
  let function_name := dget event (pys "function") (.jstr [])
  let action_group := dget event (pys "actionGroup") (.jstr [])
  let parameters_list := dget event (pys "parameters") (.jlist [])
  match buildParams parameters_list with
  | .error e => .error e
  | .ok parameters =>
    if function_name = .jstr (pys "generate_summary") then
      .ok (generate_summary env parameters action_group function_name)
    else
      .ok (Bedrock.create_error_response action_group function_name
        (pys "Unknown function: " ++ pyStrOf function_name)
        (.jlist [.jstr (pys "generate_summary")]))

/-- `lambda_handler` (summary_generator.py lines 9-57): the body guarded
by the top-level `except Exception` clause, which produces the
`Internal server error` FAILURE envelope. -/
def lambda_handler (env : PyEnv) (event : Event) : JValue :=
  match lambda_handler_body env event with
  | .ok r => r
  | .error e =>
      Bedrock.create_error_response (dget event (pys "actionGroup") (.jstr []))
        (dget event (pys "function") (.jstr []))
        (pys "Internal server error") (.jstr e)

end SummaryGenerator

namespace TextProcessor

/-- The body of `process_text` (text_processor.py lines 75-159) inside its
`try`: parameter extraction, the required-parameter check, the S3 fetch,
suffix-dispatched decoding, the processing-type branches and result
construction.  The S3 read, byte decoding and `json` round-trip come from
`PyEnv`; any fault they raise travels out as `.error`, exactly like the
exceptions the source lets its `except` clause catch. -/
def process_text_body (env : PyEnv) (parameters : PDict)
    (action_group function_name : JValue) : Except Str JValue :=
  let s3_bucket := pdictGet parameters (.jstr (pys "s3_bucket")) .jnull
  let s3_key := pdictGet parameters (.jstr (pys "s3_key")) .jnull
  let processing_type :=
    pdictGet parameters (.jstr (pys "processing_type")) (.jstr (pys "extract"))
  if !s3_bucket.pyTruthy || !s3_key.pyTruthy then
    .ok (Bedrock.create_error_response action_group function_name
      (pys "Missing required parameters")
      (.jobj [(pys "required",
        .jlist [.jstr (pys "s3_bucket"), .jstr (pys "s3_key")])]))
  else
    match s3_bucket, s3_key with
    | .jstr bucket, .jstr key =>
      match env.s3_get_object bucket key with
      | .error e => .error e
      | .ok file_content =>
        let decoded : Except Str Str :=
          if pyEndsWith (pyLower key) (pys ".txt") then
            env.decode_utf8 file_content
          else if pyEndsWith (pyLower key) (pys ".json") then
            match env.decode_utf8 file_content with
            | .error e => .error e
            | .ok s =>
              match env.json_loads s with
              | .error e => .error e
              | .ok j => .ok (env.json_dumps_indent2 j)
          else .ok (env.decode_utf8_ignore file_content)
        match decoded with
        | .error e => .error e
        | .ok text_content =>
          let file_type := pyLower ((pySplitChar '.' key).getLastD [])
          let finish : Str → JValue → Except Str JValue :=
            fun processed_text metadata =>
              let ptStr := match processing_type with | .jstr s => s | _ => []
              let processing_id :=
                pys "proc_" ++
                  pad5 (env.pyHash (bucket ++ key ++ ptStr) % 100000)
              let result : JValue := .jobj [
                (pys "processing_id", .jstr processing_id),
                (pys "status", .jstr (pys "completed")),
                (pys "extracted_text", .jstr (processed_text.take 1000)),
                (pys "metadata", metadata),
                (pys "processing_type", processing_type),
                (pys "source", .jobj [(pys "bucket", .jstr bucket),
                  (pys "key", .jstr key)])]
              .ok (Bedrock.create_success_response action_group function_name
                result)
          if processing_type = .jstr (pys "extract") then
            finish text_content (.jobj [
              (pys "file_size", .jint file_content.length),
              (pys "character_count", .jint text_content.length),
              (pys "word_count", .jint (pySplitWs text_content).length),
              (pys "file_type", .jstr file_type)])
          else if processing_type = .jstr (pys "analyze") then
            finish text_content (.jobj [
              (pys "file_size", .jint file_content.length),
              (pys "character_count", .jint text_content.length),
              (pys "word_count", .jint (pySplitWs text_content).length),
              (pys "line_count",
                .jint (pySplitChar '\n' text_content).length),
              (pys "file_type", .jstr file_type),
              (pys "sentiment", .jstr (pys "neutral")),
              (pys "key_topics", .jlist [.jstr (pys "document"),
                .jstr (pys "text"), .jstr (pys "processing")])])
          else if processing_type = .jstr (pys "clean") then
            let processed_text :=
              pyJoin (pys "\n")
                (((pySplitChar '\n' (pyStrip text_content)).map pyStrip).filter
                  (fun line => !line.isEmpty))
            finish processed_text (.jobj [
              (pys "file_size", .jint file_content.length),
              (pys "original_character_count", .jint text_content.length),
              (pys "cleaned_character_count", .jint processed_text.length),
              (pys "file_type", .jstr file_type)])
          else
            .ok (Bedrock.create_error_response action_group function_name
              (pys "Invalid processing type")
              (.jobj [(pys "valid_types", .jlist [.jstr (pys "extract"),
                .jstr (pys "analyze"), .jstr (pys "clean")])]))
    | _, _ => .error (pys "ParamValidationError: invalid bucket or key type")

/-- `process_text` (text_processor.py lines 63-168): the body with its
own `except Exception` clause, producing the `Text processing failed`
FAILURE envelope carrying `str(e)`. -/
def process_text (env : PyEnv) (parameters : PDict)
    (action_group function_name : JValue) : JValue :=
  match process_text_body env parameters action_group function_name with
  | .ok r => r
  | .error e =>
      Bedrock.create_error_response action_group function_name
        (pys "Text processing failed") (.jstr e)

/-- The body of `lambda_handler` (text_processor.py lines 29-52) inside
its `try`. -/
def lambda_handler_body (env : PyEnv) (event : Event) : Except Str JValue :=
  let function_name := dget event (pys "function") (.jstr [])
  let action_group := dget event (pys "actionGroup") (.jstr [])
  let parameters_list := dget event (pys "parameters") (.jlist [])
  match buildParams parameters_list with
  | .error e => .error e
  | .ok parameters =>
    if function_name = .jstr (pys "process_text") then
      .ok (process_text env parameters action_group function_name)
    else
      .ok (Bedrock.create_error_response action_group function_name
        (pys "Unknown function: " ++ pyStrOf function_name)
        (.jlist [.jstr (pys "process_text")]))

/-- `lambda_handler` (text_processor.py lines 13-61): the body guarded by
the top-level `except Exception` clause. -/
def lambda_handler (env : PyEnv) (event : Event) : JValue :=
  match lambda_handler_body env event with
  | .ok r => r
  | .error e =>
      Bedrock.create_error_response (dget event (pys "actionGroup") (.jstr []))
        (dget event (pys "function") (.jstr []))
        (pys "Internal server error") (.jstr e)

end TextProcessor

namespace OrderLookup

/-- The `order_id` extraction loop of `handler` (app.py lines 24-28):
scan the parameters for the first entry whose `name` is `order_id` and
take its `value`; entries before the first match must be dicts
(`param.get` on anything else raises). `None` stands for no match. -/
def findOrderIdLoop : List JValue → Except Str JValue
  | [] => .ok .jnull
  | p :: ps =>
    match p with
    | .jobj fs =>
        if dget fs (pys "name") .jnull = .jstr (pys "order_id") then
          .ok (dget fs (pys "value") .jnull)
        else findOrderIdLoop ps
    | _ => .error (pys "AttributeError: object has no attribute get")

/-- The first entry of the `mock_orders` fixture (app.py lines 66-76). -/
def order12345 : JValue := .jobj [
  (pys "order_id", .jstr (pys "12345")),
  (pys "customer_name", .jstr (pys "John Doe")),
  (pys "status", .jstr (pys "shipped")),
  (pys "items", .jlist [
    .jobj [(pys "product", .jstr (pys "Widget A")),
      (pys "quantity", .jint 2), (pys "price", .jrat ((2999 : Rat) / 100))],
    .jobj [(pys "product", .jstr (pys "Widget B")),
      (pys "quantity", .jint 1), (pys "price", .jrat ((4550 : Rat) / 100))]]),
  (pys "total", .jrat ((10548 : Rat) / 100)),
  (pys "tracking_number", .jstr (pys "TRK789456123"))]

/-- The second entry of the `mock_orders` fixture (app.py lines 77-86). -/
def order67890 : JValue := .jobj [
  (pys "order_id", .jstr (pys "67890")),
  (pys "customer_name", .jstr (pys "Jane Smith")),
  (pys "status", .jstr (pys "processing")),
  (pys "items", .jlist [
    .jobj [(pys "product", .jstr (pys "Gadget X")),
      (pys "quantity", .jint 1), (pys "price", .jrat ((19999 : Rat) / 100))]]),
  (pys "total", .jrat ((19999 : Rat) / 100)),
  (pys "tracking_number", .jnull)]

/-- `lookup_order` (app.py lines 59-93): `mock_orders.get(order_id, <not
found dict>)`.  An unhashable `order_id` (list/dict) makes the `.get`
raise `TypeError`; any other value simply misses both string keys. -/
def lookup_order (order_id : JValue) : Except Str JValue :=
  match order_id with
  | .jlist _ => .error (pys "TypeError: unhashable type")
  | .jobj _ => .error (pys "TypeError: unhashable type")
  | oid =>
      if oid = .jstr (pys "12345") then .ok order12345
      else if oid = .jstr (pys "67890") then .ok order67890
      else .ok (.jobj [
        (pys "order_id", oid),
        (pys "status", .jstr (pys "not_found")),
        (pys "message", .jstr (pys "Order not found in system"))])

/-- The flat HTTP-style envelope `statusCode`/`body` pair the order-lookup
handler returns. -/
def flatResponse (statusCode : Int) (bodyObj : JValue) : JValue :=
  .jobj [(pys "statusCode", .jint statusCode),
    (pys "body", .jstr (jsonDumps bodyObj))]

/-- The body of `handler` (app.py lines 16-48) inside its `try`: read the
(unused) `inputText`, scan the parameters for `order_id`, return 400 when
it is falsy, otherwise look the order up and return 200. -/
def handler_body (event : Event) : Except Str JValue :=
  let _input_text := dget event (pys "inputText") (.jstr [])
  let parameters := dget event (pys "parameters") (.jlist [])
  match iterElems parameters with
  | .error e => .error e
  | .ok ps =>
    match findOrderIdLoop ps with
    | .error e => .error e
    | .ok order_id =>
      if !order_id.pyTruthy then
        .ok (flatResponse 400
          (.jobj [(pys "error",
            .jstr (pys "Missing required parameter: order_id"))]))
      else
        match lookup_order order_id with
        | .error e => .error e
        | .ok order_data =>
            .ok (flatResponse 200 (.jobj [
              (pys "order", order_data),
              (pys "message", .jstr
                (pys "Successfully retrieved order " ++ pyStrOf order_id))]))

/-- `handler` (app.py lines 11-57): the body guarded by the top-level
`except Exception` clause, which returns the 500 envelope. -/
def handler (event : Event) : JValue :=
  match handler_body event with
  | .ok _r => _r
  | .error _ =>
      flatResponse 500
        (.jobj [(pys "error", .jstr (pys "Internal server error"))])

end OrderLookup

namespace ProductSearchApi

/-- The `Product` record of product-search-api/app.py lines 22-28. -/
structure Product where
  id : Str
  name : Str
  description : Str
  price : Rat
  category : Str
  in_stock : Bool
  deriving DecidableEq

/-- The `MOCK_PRODUCTS` fixture (app.py lines 36-42). -/
def MOCK_PRODUCTS : List Product := [
  ⟨pys "1", pys "Wireless Headphones", pys "High-quality wireless headphones",
    (9999 : Rat) / 100, pys "Electronics", true⟩,
  ⟨pys "2", pys "Coffee Maker", pys "Automatic drip coffee maker",
    (7999 : Rat) / 100, pys "Kitchen", true⟩,
  ⟨pys "3", pys "Running Shoes", pys "Comfortable running shoes",
    (12999 : Rat) / 100, pys "Sports", false⟩,
  ⟨pys "4", pys "Laptop Stand", pys "Adjustable laptop stand",
    (4599 : Rat) / 100, pys "Office", true⟩,
  ⟨pys "5", pys "Smartphone", pys "Latest model smartphone",
    (69999 : Rat) / 100, pys "Electronics", true⟩]

/-- The `ProductSearchRequest` model (app.py lines 15-20); `limit`
defaults to `10` at the Pydantic layer, so the default request carries
`some 10`. -/
structure ProductSearchRequest where
  query : Str
  category : Option Str
  min_price : Option Rat
  max_price : Option Rat
  limit : Option Int

/-- The category filter guard (app.py line 57): skip when the requested
category is truthy and differs case-insensitively. -/
def categorySkip (c : Option Str) (product_category : Str) : Bool :=
  match c with
  | none => false
  | some s => !s.isEmpty && decide (pyLower product_category ≠ pyLower s)

/-- The `min_price` filter guard (app.py line 61): applied only when the
value is truthy (so `0` disables it). -/
def minPriceSkip (mp : Option Rat) (price : Rat) : Bool :=
  match mp with
  | none => false
  | some q => decide (q ≠ 0) && decide (price < q)

/-- The `max_price` filter guard (app.py line 63): applied only when the
value is truthy (so `0` disables it). -/
def maxPriceSkip (mp : Option Rat) (price : Rat) : Bool :=
  match mp with
  | none => false
  | some q => decide (q ≠ 0) && decide (q < price)

/-- One iteration of the search loop (app.py lines 51-66): the product is
kept when the lowercased query occurs in its name or description and no
filter guard skips it. -/
def productKept (request : ProductSearchRequest) (product : Product) : Bool :=
  (pyContainsSub (pyLower request.query) (pyLower product.name) ||
   pyContainsSub (pyLower request.query) (pyLower product.description)) &&
  !categorySkip request.category product.category &&
  !minPriceSkip request.min_price product.price &&
  !maxPriceSkip request.max_price product.price

/-- The `ProductSearchResponse` model (app.py lines 30-33). -/
structure ProductSearchResponse where
  products : List Product
  total_count : Nat
  query : Str
  deriving DecidableEq

/-- Python `l[:n]` on a list with an optional bound (`l[:None]` is the
whole list). -/
def pyListSliceTo {α : Type} (l : List α) : Option Int → List α
  | none => l
  | some n => if 0 ≤ n then l.take n.toNat else l.take (l.length - (-n).toNat)

/-- `search_products` (app.py lines 44-75): filter the fixed catalog,
apply the limit slice, report the unlimited count. -/
def search_products (request : ProductSearchRequest) : ProductSearchResponse :=
  let filtered_products := MOCK_PRODUCTS.filter (productKept request)
  let limited_products := pyListSliceTo filtered_products request.limit
  ⟨limited_products, filtered_products.length, request.query⟩

end ProductSearchApi

/-- First-some choice on options (Python's `or` on the found-entry). -/
def optOr {α : Type} : Option α → Option α → Option α
  | some a, _ => some a
  | none, b => b

/-- Whether an exceptional computation succeeded. -/
def exceptIsOk {ε α : Type} : Except ε α → Bool
  | .ok _ => true
  | .error _ => false

/-- The message of a failed computation (`str(e)` at the except clause);
empty on success. -/
def errText {α : Type} : Except Str α → Str
  | .error e => e
  | .ok _ => []

/-- A concrete runtime environment for instantiating the theorems: a
constant hash and an S3 client whose read fails. -/
def trivialEnv : PyEnv :=
  ⟨fun _ => 0, fun _ _ => .error (pys "NoSuchKey"),
   fun _ => .ok [], fun _ => [], fun _ => .error (pys "JSONDecodeError"),
   fun _ => []⟩

/-- An order-lookup invocation event carrying a single `order_id`
parameter. -/
def mkOrderEvent (oid : Str) : Event :=
  [(pys "parameters", .jlist [.jobj [
    (pys "name", .jstr (pys "order_id")),
    (pys "value", .jstr oid)]])]

lemma optOr_none {α : Type} (x : Option α) : optOr x none = x := by
  cases x <;> rfl

lemma pdictFind_update (d : PDict) (k v q : JValue) :
    pdictFind (pdictUpdate d k v) q = if q = k then some v else pdictFind d q := by
  induction d with
  | nil =>
      by_cases h : q = k
      · subst h; simp [pdictUpdate, pdictFind]
      · have h2 : ¬(k = q) := fun hh => h hh.symm
        simp [pdictUpdate, pdictFind, h, h2]
  | cons kv rest ih =>
      obtain ⟨k2, v2⟩ := kv
      by_cases h2 : k2 = k
      · subst h2
        by_cases hq : k2 = q
        · subst hq; simp [pdictUpdate, pdictFind]
        · have hq2 : ¬(q = k2) := fun hh => hq hh.symm
          simp [pdictUpdate, pdictFind, hq, hq2]
      · by_cases hq : k2 = q <;> by_cases hqk : q = k <;>
          simp_all [pdictUpdate, pdictFind]

lemma pdictFind_foldl_update (kvs : List (JValue × JValue)) (d : PDict)
    (k : JValue) :
    pdictFind (kvs.foldl (fun acc kv => pdictUpdate acc kv.1 kv.2) d) k =
      optOr (((kvs.filter (fun kv => decide (kv.1 = k))).getLast?).map
        Prod.snd) (pdictFind d k) := by
  induction kvs using List.reverseRecOn with
  | nil => simp [optOr]
  | append_singleton l a ih =>
      rw [List.foldl_append, List.filter_append]
      simp only [List.foldl_cons, List.foldl_nil]
      rw [pdictFind_update]
      by_cases hk : a.1 = k
      · have hfa : List.filter (fun kv => decide (kv.1 = k)) [a] = [a] := by
          simp [hk]
        rw [hfa, List.getLast?_concat]
        simp [optOr, if_pos hk.symm]
      · have hfa : List.filter (fun kv => decide (kv.1 = k)) [a] = [] := by
          simp [hk]
        have hk2 : ¬(k = a.1) := fun hh => hk hh.symm
        rw [hfa, List.append_nil, if_neg hk2]
        exact ih

/-- C3: the normalized parameter mapping is the left-to-right fold of the
parameters sequence with last-write-wins — a lookup in the folded dict
returns the value of the last entry with that name — and on the concrete
sequence `name x value 1, name x value 2` the handlers' normalization
produces the single binding `x = 2`. -/
theorem c3_parameters_last_write_wins :
    (∀ (kvs : List (JValue × JValue)) (k : JValue),
      pdictFind (kvs.foldl (fun acc kv => pdictUpdate acc kv.1 kv.2) []) k =
        ((kvs.filter (fun kv => decide (kv.1 = k))).getLast?).map Prod.snd) ∧
    buildParams (.jlist [
      .jobj [(pys "name", .jstr (pys "x")), (pys "value", .jstr (pys "1"))],
      .jobj [(pys "name", .jstr (pys "x")), (pys "value", .jstr (pys "2"))]]) =
      .ok [(.jstr (pys "x"), .jstr (pys "2"))] ∧
    pdictGet [((.jstr (pys "x") : JValue), (.jstr (pys "2") : JValue))]
      (.jstr (pys "x")) (.jstr []) = .jstr (pys "2") := by
  refine ⟨fun kvs k => ?_, by rfl, by decide⟩
  have h := pdictFind_foldl_update kvs [] k
  simpa [pdictFind, optOr_none] using h

/-- C7: on the text `A. B. C.` the sentence splitter produces the three
stripped sentences `A`, `B`, `C`, and the brief summary concatenates the
first and last of them with `. `, giving exactly `A. C`. -/
theorem c7_brief_three_sentences :
    SummaryGenerator.sentencesOf (pys "A. B. C.") =
      [pys "A", pys "B", pys "C"] ∧
    SummaryGenerator.generate_brief_summary (pys "A. B. C.") none =
      pys "A. C" := by
  decide

/-- C5 counterexample: the query `phone` (no filters, limit 10) matches
TWO products of the mock catalog — `phone` is a substring of
`headphones`, so `Wireless Headphones` matches besides `Smartphone` —
hence `total_count` is 2, not 1, and the result is not the single item
`Smartphone` the claim states. -/
theorem c5_counterexample :
    (ProductSearchApi.search_products
      ⟨pys "phone", none, none, none, some 10⟩).total_count = 2 ∧
    ¬ ((ProductSearchApi.search_products
      ⟨pys "phone", none, none, none, some 10⟩).total_count = 1) ∧
    ¬ ((ProductSearchApi.search_products
      ⟨pys "phone", none, none, none, some 10⟩).products.map
        (fun p => p.name) = [pys "Smartphone"]) := by
  decide

/-- C5 amended: the search with query `phone`, no category or price
filter and the default limit 10 returns exactly the two products
`Wireless Headphones` and `Smartphone` (in catalog order) with
`total_count = 2`. -/
theorem c5_amended_phone_search :
    (ProductSearchApi.search_products
      ⟨pys "phone", none, none, none, some 10⟩).products.map
        (fun p => p.name) =
      [pys "Wireless Headphones", pys "Smartphone"] ∧
    (ProductSearchApi.search_products
      ⟨pys "phone", none, none, none, some 10⟩).total_count = 2 := by
  decide

/-- C10: a `min_price` or `max_price` equal to 0 is treated exactly like
an absent filter — each price guard fires only on a truthy value — so for
every query, category, other price bound and limit the search result with
a zero bound equals the result with that bound absent. -/
theorem c10_zero_price_filter_is_absent :
    ∀ (q : Str) (c : Option Str) (mp xp : Option Rat) (lim : Option Int),
      ProductSearchApi.search_products ⟨q, c, mp, some 0, lim⟩ =
        ProductSearchApi.search_products ⟨q, c, mp, none, lim⟩ ∧
      ProductSearchApi.search_products ⟨q, c, some 0, xp, lim⟩ =
        ProductSearchApi.search_products ⟨q, c, none, xp, lim⟩ := by
  intro q c mp xp lim
  constructor
  · have hkept : ProductSearchApi.productKept ⟨q, c, mp, some 0, lim⟩ =
        ProductSearchApi.productKept ⟨q, c, mp, none, lim⟩ := by
      funext p
      simp [ProductSearchApi.productKept, ProductSearchApi.maxPriceSkip]
    simp [ProductSearchApi.search_products, hkept]
  · have hkept : ProductSearchApi.productKept ⟨q, c, some 0, xp, lim⟩ =
        ProductSearchApi.productKept ⟨q, c, none, xp, lim⟩ := by
      funext p
      simp [ProductSearchApi.productKept, ProductSearchApi.minPriceSkip]
    simp [ProductSearchApi.search_products, hkept]

lemma pySplitP_of_not_mem (p : Char → Bool) (t : Str)
    (h : ∀ c ∈ t, p c = false) : pySplitP p t = [t] := by
  induction t with
  | nil => rfl
  | cons c cs ih =>
      have hc : p c = false := h c (by simp)
      have ih2 := ih (fun x hx => h x (by simp [hx]))
      simp [pySplitP, ih2, hc]

lemma sentencesOf_single (t : Str) (hne : t ≠ []) (hdot : '.' ∉ t)
    (hstrip : pyStrip t = t) : SummaryGenerator.sentencesOf t = [t] := by
  have hsplit : pySplitChar '.' t = [t] := by
    apply pySplitP_of_not_mem
    intro c hc
    exact decide_eq_false (fun heq => hdot (heq ▸ hc))
  obtain ⟨a, as, rfl⟩ : ∃ a as, t = a :: as := by
    cases t with
    | nil => exact absurd rfl hne
    | cons a as => exact ⟨a, as, rfl⟩
  unfold SummaryGenerator.sentencesOf
  rw [hsplit]
  simp [hstrip]

lemma applyMaxLength_none (s : Str) :
    SummaryGenerator.applyMaxLength s none = s := rfl

/-- C6 counterexample: `Hello` is a single sentence with no trailing
period (no `.` occurs in it and it is its own strip), yet the detailed
summary returns `Hello.` — the source appends a period — which differs
from the verbatim input. -/
theorem c6_counterexample :
    ('.' ∉ pys "Hello") ∧ pyStrip (pys "Hello") = pys "Hello" ∧
    SummaryGenerator.generate_detailed_summary (pys "Hello") none =
      pys "Hello." ∧
    SummaryGenerator.generate_detailed_summary (pys "Hello") none ≠
      pys "Hello" := by
  decide

/-- C6 amended: for a non-empty text containing no `.` and equal to its
own strip, the brief summary returns the text verbatim, while the
detailed summary returns the text with one trailing period appended. -/
theorem c6_amended_single_sentence (t : Str) (hne : t ≠ [])
    (hdot : '.' ∉ t) (hstrip : pyStrip t = t) :
    SummaryGenerator.generate_brief_summary t none = t ∧
    SummaryGenerator.generate_detailed_summary t none = t ++ ['.'] := by
  have hs := sentencesOf_single t hne hdot hstrip
  constructor
  · simp [SummaryGenerator.generate_brief_summary, hs,
      SummaryGenerator.applyMaxLength]
  · simp [SummaryGenerator.generate_detailed_summary, hs,
      SummaryGenerator.applyMaxLength, pyJoin]

/-- C6 witness: the amended statement instantiated at the text `Hello`. -/
theorem c6_amended_single_sentence_witness :
    (pys "Hello" ≠ []) ∧ ('.' ∉ pys "Hello") ∧
    pyStrip (pys "Hello") = pys "Hello" ∧
    SummaryGenerator.generate_brief_summary (pys "Hello") none =
      pys "Hello" ∧
    SummaryGenerator.generate_detailed_summary (pys "Hello") none =
      pys "Hello" ++ ['.'] :=
  ⟨by decide, by decide, by decide,
   (c6_amended_single_sentence (pys "Hello") (by decide) (by decide)
     (by decide)).1,
   (c6_amended_single_sentence (pys "Hello") (by decide) (by decide)
     (by decide)).2⟩

lemma applyMaxLength_trunc (s : Str) (m : Int) (hm : 3 ≤ m)
    (hl : m < (s.length : Int)) :
    ((SummaryGenerator.applyMaxLength s (some m)).length : Int) = m ∧
    ∃ p, SummaryGenerator.applyMaxLength s (some m) = p ++ pys "..." := by
  have hm0 : m ≠ 0 := by omega
  have hcond : m ≠ 0 ∧ ((s.length : Int) > m) := ⟨hm0, hl⟩
  simp only [SummaryGenerator.applyMaxLength]
  rw [if_pos hcond]
  refine ⟨?_, ⟨_, rfl⟩⟩
  unfold pySliceTo
  rw [if_pos (by omega : (0:Int) ≤ m - 3)]
  rw [List.length_append, List.length_take]
  have h1 : (m - 3).toNat ≤ s.length := by omega
  rw [min_eq_left h1]
  have h3 : (pys "...").length = 3 := rfl
  rw [h3]
  omega

lemma gbs_some_applyMax (t : Str) (m : Int)
    (hs : SummaryGenerator.sentencesOf t ≠ []) :
    SummaryGenerator.generate_brief_summary t (some m) =
      SummaryGenerator.applyMaxLength
        (SummaryGenerator.generate_brief_summary t none) (some m) := by
  unfold SummaryGenerator.generate_brief_summary
  cases hse : SummaryGenerator.sentencesOf t with
  | nil => exact absurd hse hs
  | cons s0 tail =>
    cases tail with
    | nil => simp only [hse, applyMaxLength_none]
    | cons s1 tail2 =>
      cases tail2 with
      | nil => simp only [hse, applyMaxLength_none]
      | cons s2 rest => simp only [hse, applyMaxLength_none]

lemma gds_some_applyMax (t : Str) (m : Int)
    (hs : SummaryGenerator.sentencesOf t ≠ []) :
    SummaryGenerator.generate_detailed_summary t (some m) =
      SummaryGenerator.applyMaxLength
        (SummaryGenerator.generate_detailed_summary t none) (some m) := by
  unfold SummaryGenerator.generate_detailed_summary
  cases hse : SummaryGenerator.sentencesOf t with
  | nil => exact absurd hse hs
  | cons s0 tail => simp only [hse, applyMaxLength_none]

lemma bulletTruncLoop_bound (m : Int) (pts : List Str) (cl : Int) :
    SummaryGenerator.bulletTruncLoop m pts cl = [] ∨
    cl + ((pyJoin (pys "\n")
      (SummaryGenerator.bulletTruncLoop m pts cl)).length : Int) + 1 ≤
      m - 3 := by
  induction pts generalizing cl with
  | nil => left; rfl
  | cons pt rest ih =>
      unfold SummaryGenerator.bulletTruncLoop
      by_cases hg : cl + (pt.length : Int) + 1 ≤ m - 3
      · rw [if_pos hg]
        right
        cases hr : SummaryGenerator.bulletTruncLoop m rest
            (cl + (pt.length : Int) + 1) with
        | nil =>
            simpa [pyJoin] using hg
        | cons a as =>
            have h2 := ih (cl + (pt.length : Int) + 1)
            rw [hr] at h2
            rcases h2 with h2 | h2
            · exact absurd h2 (by simp)
            · have hj : pyJoin (pys "\n") (pt :: a :: as) =
                  pt ++ pys "\n" ++ pyJoin (pys "\n") (a :: as) := rfl
              rw [hj, List.length_append, List.length_append]
              have hsep : (pys "\n").length = 1 := rfl
              rw [hsep]
              push_cast at h2 ⊢
              omega
      · rw [if_neg hg]; left; rfl

lemma bulletTrunc_result_bound (m : Int) (hm : 3 ≤ m) (pts : List Str) :
    ((pyJoin (pys "\n") (SummaryGenerator.bulletTruncLoop m pts 0) ++
      pys "...").length : Int) ≤ m := by
  have h := bulletTruncLoop_bound m pts 0
  cases hL : SummaryGenerator.bulletTruncLoop m pts 0 with
  | nil =>
      have h3 : ((pyJoin (pys "\n") ([] : List Str) ++
        pys "...").length : Int) = 3 := rfl
      rw [h3]
      omega
  | cons a as =>
      rw [hL] at h
      rcases h with h | h
      · exact absurd h (by simp)
      · rw [List.length_append]
        have h3 : (pys "...").length = 3 := rfl
        rw [h3]
        push_cast at h ⊢
        omega

lemma gbp_trunc (t : Str) (m : Int) (hm : 3 ≤ m)
    (hs : SummaryGenerator.sentencesOf t ≠ [])
    (hl : m < ((SummaryGenerator.generate_bullet_points_summary t
      none).length : Int)) :
    ((SummaryGenerator.generate_bullet_points_summary t
      (some m)).length : Int) ≤ m ∧
    ∃ p, SummaryGenerator.generate_bullet_points_summary t (some m) =
      p ++ pys "..." := by
  cases hse : SummaryGenerator.sentencesOf t with
  | nil => exact absurd hse hs
  | cons s rest =>
    simp only [SummaryGenerator.generate_bullet_points_summary, hse] at hl ⊢
    have hm0 : m ≠ 0 := by omega
    rw [if_pos ⟨hm0, hl⟩]
    exact ⟨bulletTrunc_result_bound m hm _, ⟨_, rfl⟩⟩

/-- C4 counterexample: with `max_length = 2` (shorter than the natural
summary `Hello world`) the brief summary returns `Hello worl...` of
length 13 — the negative Python slice `summary[:-1]` makes the result
LONGER, exceeding `max_length` — and with text `.` (no sentences) and
`max_length = 10` the early `No content to summarize.` return has length
24 and no ellipsis, also exceeding `max_length`. -/
theorem c4_counterexample :
    SummaryGenerator.generate_brief_summary (pys "Hello world") (some 2) =
      pys "Hello worl..." ∧
    ¬ ((SummaryGenerator.generate_brief_summary (pys "Hello world")
      (some 2)).length ≤ 2) ∧
    SummaryGenerator.generate_brief_summary (pys ".") (some 10) =
      pys "No content to summarize." ∧
    ¬ ((SummaryGenerator.generate_brief_summary (pys ".")
      (some 10)).length ≤ 10) := by
  decide

/-- C4 amended: for every text with at least one sentence and every
`max_length` with `3 ≤ max_length` that is shorter than the natural
summary, the brief and detailed summaries are truncated to exactly
`max_length` characters ending in `...`, and the bullet-point summary
ends in `...` with length at most `max_length`. -/
theorem c4_amended_truncation (t : Str) (m : Int) (hm : 3 ≤ m)
    (hs : SummaryGenerator.sentencesOf t ≠ []) :
    ((m < ((SummaryGenerator.generate_brief_summary t none).length : Int)) →
      ((SummaryGenerator.generate_brief_summary t (some m)).length : Int) =
        m ∧
      ∃ p, SummaryGenerator.generate_brief_summary t (some m) =
        p ++ pys "...") ∧
    ((m < ((SummaryGenerator.generate_detailed_summary t
        none).length : Int)) →
      ((SummaryGenerator.generate_detailed_summary t
        (some m)).length : Int) = m ∧
      ∃ p, SummaryGenerator.generate_detailed_summary t (some m) =
        p ++ pys "...") ∧
    ((m < ((SummaryGenerator.generate_bullet_points_summary t
        none).length : Int)) →
      ((SummaryGenerator.generate_bullet_points_summary t
        (some m)).length : Int) ≤ m ∧
      ∃ p, SummaryGenerator.generate_bullet_points_summary t (some m) =
        p ++ pys "...") := by
  refine ⟨fun hl => ?_, fun hl => ?_, fun hl => gbp_trunc t m hm hs hl⟩
  · rw [gbs_some_applyMax t m hs]
    exact applyMaxLength_trunc _ m hm hl
  · rw [gds_some_applyMax t m hs]
    exact applyMaxLength_trunc _ m hm hl

/-- C4 witness: the amended statement instantiated at the text
`Hello world` and `max_length = 5` (the natural brief, detailed and
bullet summaries have lengths 11, 12 and 15). -/
theorem c4_amended_truncation_witness :
    ((SummaryGenerator.generate_brief_summary (pys "Hello world")
      (some 5)).length : Int) = 5 ∧
    (∃ p, SummaryGenerator.generate_brief_summary (pys "Hello world")
      (some 5) = p ++ pys "...") ∧
    ((SummaryGenerator.generate_detailed_summary (pys "Hello world")
      (some 5)).length : Int) = 5 ∧
    ((SummaryGenerator.generate_bullet_points_summary (pys "Hello world")
      (some 5)).length : Int) ≤ 5 ∧
    (∃ p, SummaryGenerator.generate_bullet_points_summary
      (pys "Hello world") (some 5) = p ++ pys "...") :=
  ⟨((c4_amended_truncation (pys "Hello world") 5 (by decide)
      (by decide)).1 (by decide)).1,
   ((c4_amended_truncation (pys "Hello world") 5 (by decide)
      (by decide)).1 (by decide)).2,
   ((c4_amended_truncation (pys "Hello world") 5 (by decide)
      (by decide)).2.1 (by decide)).1,
   ((c4_amended_truncation (pys "Hello world") 5 (by decide)
      (by decide)).2.2 (by decide)).1,
   ((c4_amended_truncation (pys "Hello world") 5 (by decide)
      (by decide)).2.2 (by decide)).2⟩

/-- C8: for any order id other than the two fixture keys (and non-empty,
so that the required-parameter check passes), the order-lookup handler
returns the SUCCESS envelope with `statusCode` 200 whose `order` object
is the structured not-found result — `order_id`, `status = not_found`
and a message — rather than a failure response. -/
theorem c8_unknown_order_not_found (oid : Str)
    (h1 : oid ≠ []) (h2 : oid ≠ pys "12345") (h3 : oid ≠ pys "67890") :
    OrderLookup.handler (mkOrderEvent oid) =
      OrderLookup.flatResponse 200 (.jobj [
        (pys "order", .jobj [
          (pys "order_id", .jstr oid),
          (pys "status", .jstr (pys "not_found")),
          (pys "message", .jstr (pys "Order not found in system"))]),
        (pys "message",
          .jstr (pys "Successfully retrieved order " ++ oid))]) := by
  have hoid : (JValue.jstr oid).pyTruthy = true := by
    cases oid with
    | nil => exact absurd rfl h1
    | cons a as => rfl
  have E : iterElems (dget (mkOrderEvent oid) (pys "parameters")
      (.jlist [])) = .ok [.jobj [(pys "name", .jstr (pys "order_id")),
        (pys "value", .jstr oid)]] := rfl
  have F : OrderLookup.findOrderIdLoop [.jobj [(pys "name",
      .jstr (pys "order_id")), (pys "value", .jstr oid)]] =
      .ok (.jstr oid) := rfl
  have LU : OrderLookup.lookup_order (.jstr oid) = .ok (.jobj [
      (pys "order_id", .jstr oid),
      (pys "status", .jstr (pys "not_found")),
      (pys "message", .jstr (pys "Order not found in system"))]) := by
    simp [OrderLookup.lookup_order, h2, h3]
  simp [OrderLookup.handler, OrderLookup.handler_body, E, F, LU, hoid,
    pyStrOf]

/-- C8 witness: the not-found statement instantiated at the unknown order
id `99999`. -/
theorem c8_unknown_order_not_found_witness :
    (pys "99999" ≠ pys "12345") ∧
    OrderLookup.handler (mkOrderEvent (pys "99999")) =
      OrderLookup.flatResponse 200 (.jobj [
        (pys "order", .jobj [
          (pys "order_id", .jstr (pys "99999")),
          (pys "status", .jstr (pys "not_found")),
          (pys "message", .jstr (pys "Order not found in system"))]),
        (pys "message",
          .jstr (pys "Successfully retrieved order " ++ pys "99999"))]) :=
  ⟨by decide,
   c8_unknown_order_not_found (pys "99999") (by decide) (by decide)
     (by decide)⟩

/-- C9: a declared required parameter that is absent or empty yields the
handler's structured failure — the summary generator returns the FAILURE
envelope `Missing required parameter: text` whenever the normalized
parameters bind no (or an empty) `text`, and the order-lookup handler
returns the 400 envelope `Missing required parameter: order_id` whenever
the parameter scan finds no (or an empty) `order_id` — and no runtime
fault escapes. -/
theorem c9_missing_required_parameter :
    (∀ (env : PyEnv) (event : Event) (d : PDict),
      dget event (pys "function") (.jstr []) =
        .jstr (pys "generate_summary") →
      buildParams (dget event (pys "parameters") (.jlist [])) = .ok d →
      (pdictFind d (.jstr (pys "text")) = none ∨
       pdictFind d (.jstr (pys "text")) = some (.jstr [])) →
      SummaryGenerator.lambda_handler env event =
        Bedrock.create_error_response
          (dget event (pys "actionGroup") (.jstr []))
          (.jstr (pys "generate_summary"))
          (pys "Missing required parameter: text") .jnull) ∧
    (∀ (event : Event) (ps : List JValue),
      iterElems (dget event (pys "parameters") (.jlist [])) = .ok ps →
      (OrderLookup.findOrderIdLoop ps = .ok .jnull ∨
       OrderLookup.findOrderIdLoop ps = .ok (.jstr [])) →
      OrderLookup.handler event =
        OrderLookup.flatResponse 400
          (.jobj [(pys "error",
            .jstr (pys "Missing required parameter: order_id"))])) := by
  constructor
  · intro env event d hfn hps htext
    have htx : pdictGet d (.jstr (pys "text")) (.jstr []) = .jstr [] := by
      rcases htext with h | h <;> simp [pdictGet, h]
    simp only [SummaryGenerator.lambda_handler,
      SummaryGenerator.lambda_handler_body, hps, hfn]
    simp only [if_true]
    simp only [SummaryGenerator.generate_summary,
      SummaryGenerator.generate_summary_body, htx]
    rfl
  · intro event ps hit hfind
    simp only [OrderLookup.handler, OrderLookup.handler_body, hit]
    rcases hfind with h | h <;> simp only [h] <;> rfl

/-- C9 witness: the summary generator invoked with no parameters at all
and the order-lookup handler invoked with an empty parameter list both
return their missing-required-parameter failures. -/
theorem c9_missing_required_parameter_witness :
    buildParams (dget ([(pys "function",
      JValue.jstr (pys "generate_summary"))] : Event) (pys "parameters")
      (.jlist [])) = .ok [] ∧
    SummaryGenerator.lambda_handler trivialEnv
      [(pys "function", .jstr (pys "generate_summary"))] =
      Bedrock.create_error_response (.jstr [])
        (.jstr (pys "generate_summary"))
        (pys "Missing required parameter: text") .jnull ∧
    iterElems (dget ([(pys "parameters", JValue.jlist [])] : Event)
      (pys "parameters") (.jlist [])) = .ok [] ∧
    OrderLookup.handler [(pys "parameters", .jlist [])] =
      OrderLookup.flatResponse 400
        (.jobj [(pys "error",
          .jstr (pys "Missing required parameter: order_id"))]) :=
  ⟨rfl,
   c9_missing_required_parameter.1 trivialEnv
     [(pys "function", .jstr (pys "generate_summary"))] [] rfl rfl
     (Or.inl rfl),
   rfl,
   c9_missing_required_parameter.2 [(pys "parameters", .jlist [])] []
     rfl (Or.inl rfl)⟩

/-- C2: an invocation whose declared function name is a string other than
the supported one makes each handler return the FAILURE envelope with
message `Unknown function: <name>` whose details list exactly the
supported function names — `generate_summary` for the summary generator
and `process_text` for the text processor. -/
theorem c2_unknown_function (env : PyEnv) (event : Event) (name : Str)
    (d : PDict)
    (hfn : dget event (pys "function") (.jstr []) = .jstr name)
    (hps : buildParams (dget event (pys "parameters") (.jlist [])) =
      .ok d) :
    (name ≠ pys "generate_summary" →
      SummaryGenerator.lambda_handler env event =
        Bedrock.create_error_response
          (dget event (pys "actionGroup") (.jstr []))
          (.jstr name) (pys "Unknown function: " ++ name)
          (.jlist [.jstr (pys "generate_summary")])) ∧
    (name ≠ pys "process_text" →
      TextProcessor.lambda_handler env event =
        Bedrock.create_error_response
          (dget event (pys "actionGroup") (.jstr []))
          (.jstr name) (pys "Unknown function: " ++ name)
          (.jlist [.jstr (pys "process_text")])) := by
  constructor
  · intro hne
    have hcond : ¬(JValue.jstr name = JValue.jstr (pys "generate_summary")) :=
      by simp [hne]
    simp only [SummaryGenerator.lambda_handler,
      SummaryGenerator.lambda_handler_body, hps, hfn]
    rw [if_neg hcond]
    rfl
  · intro hne
    have hcond : ¬(JValue.jstr name = JValue.jstr (pys "process_text")) :=
      by simp [hne]
    simp only [TextProcessor.lambda_handler,
      TextProcessor.lambda_handler_body, hps, hfn]
    rw [if_neg hcond]
    rfl

/-- C2 witness: both handlers invoked with the unsupported function name
`foo` and no parameters return the unknown-function failure listing their
single supported function. -/
theorem c2_unknown_function_witness :
    (pys "foo" ≠ pys "generate_summary") ∧ (pys "foo" ≠ pys "process_text") ∧
    SummaryGenerator.lambda_handler trivialEnv
      [(pys "function", .jstr (pys "foo"))] =
      Bedrock.create_error_response (.jstr []) (.jstr (pys "foo"))
        (pys "Unknown function: " ++ pys "foo")
        (.jlist [.jstr (pys "generate_summary")]) ∧
    TextProcessor.lambda_handler trivialEnv
      [(pys "function", .jstr (pys "foo"))] =
      Bedrock.create_error_response (.jstr []) (.jstr (pys "foo"))
        (pys "Unknown function: " ++ pys "foo")
        (.jlist [.jstr (pys "process_text")]) :=
  ⟨by decide, by decide,
   (c2_unknown_function trivialEnv [(pys "function", .jstr (pys "foo"))]
     (pys "foo") [] rfl rfl).1 (by decide),
   (c2_unknown_function trivialEnv [(pys "function", .jstr (pys "foo"))]
     (pys "foo") [] rfl rfl).2 (by decide)⟩

lemma isFnSuccess_create (a f r : JValue) :
    Bedrock.isFnSuccessEnvelope (Bedrock.create_success_response a f r) =
      true := rfl

lemma isFnFailure_create (a f : JValue) (m : Str) (d : JValue) :
    Bedrock.isFnFailureEnvelope (Bedrock.create_error_response a f m d) =
      true := rfl

lemma isFnCall_create_success (a f r : JValue) :
    Bedrock.isFnCallEnvelope (Bedrock.create_success_response a f r) =
      true := by
  simp [Bedrock.isFnCallEnvelope, isFnSuccess_create]

lemma isFnCall_create_error (a f : JValue) (m : Str) (d : JValue) :
    Bedrock.isFnCallEnvelope (Bedrock.create_error_response a f m d) =
      true := by
  simp [Bedrock.isFnCallEnvelope, isFnFailure_create]

lemma gs_body_ok_envelope (env : PyEnv) (params : PDict) (a f r : JValue)
    (h : SummaryGenerator.generate_summary_body env params a f = .ok r) :
    Bedrock.isFnCallEnvelope r = true := by
  simp only [SummaryGenerator.generate_summary_body] at h
  repeat' split at h
  all_goals first
    | (injection h with h2; rw [← h2]; first
        | exact isFnCall_create_error _ _ _ _
        | exact isFnCall_create_success _ _ _)
    | exact nomatch h

lemma gs_envelope (env : PyEnv) (params : PDict) (a f : JValue) :
    Bedrock.isFnCallEnvelope
      (SummaryGenerator.generate_summary env params a f) = true := by
  unfold SummaryGenerator.generate_summary
  cases hb : SummaryGenerator.generate_summary_body env params a f with
  | error e => exact isFnCall_create_error _ _ _ _
  | ok r => exact gs_body_ok_envelope env params a f r hb

lemma sg_hbody_ok_envelope (env : PyEnv) (event : Event) (r : JValue)
    (h : SummaryGenerator.lambda_handler_body env event = .ok r) :
    Bedrock.isFnCallEnvelope r = true := by
  simp only [SummaryGenerator.lambda_handler_body] at h
  repeat' split at h
  all_goals first
    | (injection h with h2; rw [← h2]; first
        | exact isFnCall_create_error _ _ _ _
        | exact gs_envelope _ _ _ _)
    | exact nomatch h

lemma pt_body_ok_envelope (env : PyEnv) (params : PDict) (a f r : JValue)
    (h : TextProcessor.process_text_body env params a f = .ok r) :
    Bedrock.isFnCallEnvelope r = true := by
  simp only [TextProcessor.process_text_body] at h
  repeat' split at h
  all_goals first
    | (injection h with h2; rw [← h2]; first
        | exact isFnCall_create_error _ _ _ _
        | exact isFnCall_create_success _ _ _)
    | exact nomatch h

lemma pt_envelope (env : PyEnv) (params : PDict) (a f : JValue) :
    Bedrock.isFnCallEnvelope
      (TextProcessor.process_text env params a f) = true := by
  unfold TextProcessor.process_text
  cases hb : TextProcessor.process_text_body env params a f with
  | error e => exact isFnCall_create_error _ _ _ _
  | ok r => exact pt_body_ok_envelope env params a f r hb

lemma tp_hbody_ok_envelope (env : PyEnv) (event : Event) (r : JValue)
    (h : TextProcessor.lambda_handler_body env event = .ok r) :
    Bedrock.isFnCallEnvelope r = true := by
  simp only [TextProcessor.lambda_handler_body] at h
  repeat' split at h
  all_goals first
    | (injection h with h2; rw [← h2]; first
        | exact isFnCall_create_error _ _ _ _
        | exact pt_envelope _ _ _ _)
    | exact nomatch h

lemma isFlat_400 (b : JValue) :
    Bedrock.isFlatEnvelope (OrderLookup.flatResponse 400 b) = true := rfl

lemma isFlat_200 (b : JValue) :
    Bedrock.isFlatEnvelope (OrderLookup.flatResponse 200 b) = true := rfl

lemma isFlat_500 (b : JValue) :
    Bedrock.isFlatEnvelope (OrderLookup.flatResponse 500 b) = true := rfl

lemma ol_body_ok_flat (event : Event) (r : JValue)
    (h : OrderLookup.handler_body event = .ok r) :
    Bedrock.isFlatEnvelope r = true := by
  simp only [OrderLookup.handler_body] at h
  repeat' split at h
  all_goals first
    | (injection h with h2; rw [← h2]; first
        | exact isFlat_400 _
        | exact isFlat_200 _)
    | exact nomatch h

/-- C1: every invocation event produces exactly one well-formed response
envelope from each entry point — a function-call envelope (success or
FAILURE) from the two `lambda_handler`s and a flat 200/400/500 envelope
from the order-lookup `handler` — and whenever the handler body raises an
internal fault, the entry point returns the corresponding Failure
envelope (`Internal server error` with responseState FAILURE, or
statusCode 500) instead of propagating the fault. -/
theorem c1_adapter_boundary (env : PyEnv) (event : Event) :
    Bedrock.isFnCallEnvelope (SummaryGenerator.lambda_handler env event) =
      true ∧
    Bedrock.isFnCallEnvelope (TextProcessor.lambda_handler env event) =
      true ∧
    Bedrock.isFlatEnvelope (OrderLookup.handler event) = true ∧
    (exceptIsOk (SummaryGenerator.lambda_handler_body env event) = false →
      SummaryGenerator.lambda_handler env event =
        Bedrock.create_error_response
          (dget event (pys "actionGroup") (.jstr []))
          (dget event (pys "function") (.jstr []))
          (pys "Internal server error")
          (.jstr (errText
            (SummaryGenerator.lambda_handler_body env event)))) ∧
    (exceptIsOk (TextProcessor.lambda_handler_body env event) = false →
      TextProcessor.lambda_handler env event =
        Bedrock.create_error_response
          (dget event (pys "actionGroup") (.jstr []))
          (dget event (pys "function") (.jstr []))
          (pys "Internal server error")
          (.jstr (errText
            (TextProcessor.lambda_handler_body env event)))) ∧
    (exceptIsOk (OrderLookup.handler_body event) = false →
      OrderLookup.handler event =
        OrderLookup.flatResponse 500
          (.jobj [(pys "error", .jstr (pys "Internal server error"))])) := by
  refine ⟨?_, ?_, ?_, ?_, ?_, ?_⟩
  · unfold SummaryGenerator.lambda_handler
    cases hb : SummaryGenerator.lambda_handler_body env event with
    | error e => exact isFnCall_create_error _ _ _ _
    | ok r => exact sg_hbody_ok_envelope env event r hb
  · unfold TextProcessor.lambda_handler
    cases hb : TextProcessor.lambda_handler_body env event with
    | error e => exact isFnCall_create_error _ _ _ _
    | ok r => exact tp_hbody_ok_envelope env event r hb
  · unfold OrderLookup.handler
    cases hb : OrderLookup.handler_body event with
    | error e => exact isFlat_500 _
    | ok r => exact ol_body_ok_flat event r hb
  · intro hko
    cases hb : SummaryGenerator.lambda_handler_body env event with
    | ok r => rw [hb] at hko; exact absurd hko (by simp [exceptIsOk])
    | error e => simp only [SummaryGenerator.lambda_handler, hb, errText]
  · intro hko
    cases hb : TextProcessor.lambda_handler_body env event with
    | ok r => rw [hb] at hko; exact absurd hko (by simp [exceptIsOk])
    | error e => simp only [TextProcessor.lambda_handler, hb, errText]
  · intro hko
    cases hb : OrderLookup.handler_body event with
    | ok r => rw [hb] at hko; exact absurd hko (by simp [exceptIsOk])
    | error e => simp only [OrderLookup.handler, hb]

/-- C1 witness: an event whose `parameters` field is the non-iterable
number 0 makes all three handler bodies raise; every entry point still
returns its Failure envelope. -/
theorem c1_adapter_boundary_witness :
    exceptIsOk (SummaryGenerator.lambda_handler_body trivialEnv
      [(pys "parameters", JValue.jint 0)]) = false ∧
    SummaryGenerator.lambda_handler trivialEnv
      [(pys "parameters", JValue.jint 0)] =
      Bedrock.create_error_response (.jstr []) (.jstr [])
        (pys "Internal server error")
        (.jstr (errText (SummaryGenerator.lambda_handler_body trivialEnv
          [(pys "parameters", JValue.jint 0)]))) ∧
    exceptIsOk (TextProcessor.lambda_handler_body trivialEnv
      [(pys "parameters", JValue.jint 0)]) = false ∧
    TextProcessor.lambda_handler trivialEnv
      [(pys "parameters", JValue.jint 0)] =
      Bedrock.create_error_response (.jstr []) (.jstr [])
        (pys "Internal server error")
        (.jstr (errText (TextProcessor.lambda_handler_body trivialEnv
          [(pys "parameters", JValue.jint 0)]))) ∧
    exceptIsOk (OrderLookup.handler_body
      [(pys "parameters", JValue.jint 0)]) = false ∧
    OrderLookup.handler [(pys "parameters", JValue.jint 0)] =
      OrderLookup.flatResponse 500
        (.jobj [(pys "error", .jstr (pys "Internal server error"))]) :=
  ⟨rfl,
   (c1_adapter_boundary trivialEnv
     [(pys "parameters", JValue.jint 0)]).2.2.2.1 rfl,
   rfl,
   (c1_adapter_boundary trivialEnv
     [(pys "parameters", JValue.jint 0)]).2.2.2.2.1 rfl,
   rfl,
   (c1_adapter_boundary trivialEnv
     [(pys "parameters", JValue.jint 0)]).2.2.2.2.2 rfl⟩
